import Mathlib

/-!
WEEK6-TASKS: the course-enrollment backend and the user-creation controller

A shallow embedding of `src/project/server.js` (signup, login, profile,
create-course, list-courses, enroll, logout and the `authenticateToken`
middleware) and of `src/controllers/userControllers.js` together with
`src/services/userServices.js`.

The libraries the source calls are interfaces here:

* `Db σ` stands for the Mongoose models `User` and `Course`; every operation may
  fail with an error message, as an awaited Mongoose call may reject.
  `memDb` is the in-memory instance that follows the two schemas of the source.
* `Hasher` stands for `bcrypt`, `Jwt` for `jsonwebtoken` with `SECRET_KEY`.

A handler returns what it did with `res` (`Result.sent`) or the error with which
its promise rejected (`Result.threw`: no line of the handler sent a response),
and the store after it.
-/

namespace Week6

/-! ## Data model (`server.js`, lines 23-39) -/

/-- A Mongo ObjectId. -/
abbrev ObjectId := Nat

/-- A document of the `User` collection (`userSchema`). -/
structure User where
  id : ObjectId
  email : String
  password : String
  role : String
deriving DecidableEq, Repr

/-- A document of the `Course` collection (`courseSchema`). -/
structure Course where
  id : ObjectId
  title : String
  description : String
  instructorId : ObjectId
  students : List ObjectId
deriving DecidableEq, Repr

/-- A course as `populate('instructorId', 'email role')` returns it: the
instructor reference is replaced by the id, email and role of the user it
resolves to, or by null when it resolves to none. -/
structure PopulatedCourse where
  id : ObjectId
  title : String
  description : String
  instructor : Option (ObjectId × String × String)
  students : List ObjectId
deriving DecidableEq, Repr

/-- The payload of a session token: what `generateToken` signs (`id`, `role`)
and what `expiresIn: '1h'` makes jsonwebtoken add (`iat`, `exp`, in seconds). -/
structure Payload where
  id : ObjectId
  role : String
  iat : Nat
  exp : Nat
deriving DecidableEq, Repr

/-! ## Requests and responses -/

/-- JavaScript truthiness of a body field or header that is a string when
present: `undefined` and the empty string are falsy. -/
def truthy : Option String → Bool
  | none => false
  | some v => v != ""

/-- The body of `POST /signup`. -/
structure SignupBody where
  email : Option String
  password : Option String
  role : Option String
deriving DecidableEq, Repr

/-- The body of `POST /login`. -/
structure LoginBody where
  email : Option String
  password : Option String
deriving DecidableEq, Repr

/-- The body of `POST /course`. -/
structure CourseBody where
  title : Option String
  description : Option String
deriving DecidableEq, Repr

/-- The `courseId` of a body: absent, a string that Mongoose casts to an
ObjectId (given as that id), or a string that it cannot cast, such as `abc`
(given as it is). -/
inductive CourseIdField where
  | absent
  | objectId (id : ObjectId)
  | malformed (raw : String)
deriving DecidableEq, Repr

/-- The body of `POST /enroll`. -/
structure EnrollBody where
  courseId : CourseIdField
deriving DecidableEq, Repr

/-- The bodies the handlers send. -/
inductive Body where
  /-- A plain string, `res.send('...')`. -/
  | text (msg : String)
  /-- The object `{ message }`. -/
  | message (msg : String)
  /-- The object `{ token }`. -/
  | token (tok : String)
  /-- The object `{ message, user: req.user }`. -/
  | profile (msg : String) (user : Payload)
  /-- The object `{ message, course }`. -/
  | course (msg : String) (c : Course)
  /-- The object `{ courses }`. -/
  | courses (cs : List PopulatedCourse)
  /-- The object `{ message, user: { username } }`. -/
  | createdUser (msg : String) (username : Option String)
  /-- The object `{ error, details }`. -/
  | failure (error : String) (details : String)
deriving DecidableEq, Repr

/-- The token a body carries, if any. -/
def Body.token? : Body → Option String
  | .token t => some t
  | _ => none

/-- The error detail a body carries, if any. -/
def Body.details? : Body → Option String
  | .failure _ d => some d
  | _ => none

/-- What a handler did: it sent a response, or its promise rejected with an
error before any response was sent. -/
inductive Result where
  | sent (status : Nat) (body : Body)
  | threw (err : String)
deriving DecidableEq, Repr

/-- The status of the response sent, if one was. -/
def Result.status? : Result → Option Nat
  | .sent st _ => some st
  | .threw _ => none

/-- The token returned to the caller, if any. -/
def Result.token? : Result → Option String
  | .sent _ b => b.token?
  | .threw _ => none

/-! ## Library interfaces -/

/-- The `bcrypt` calls of the source: `hash salt p` is `bcrypt.hash(p, 10)` when
the salt drawn is `salt`; `compare q h` is `bcrypt.compare(q, h)`. A bcrypt
hash is a string of 60 characters, so never the empty string (`hash_ne`), and
it is one-way: it is never the password it was made from (`hash_ne_plain`). -/
structure Hasher where
  hash : Nat → String → String
  compare : String → String → Bool
  hash_ne : ∀ salt p, hash salt p ≠ ""
  hash_ne_plain : ∀ salt p, hash salt p ≠ p

/-- A hasher accepts the password a hash was made from and no other. -/
structure Hasher.Lawful (H : Hasher) : Prop where
  accept : ∀ salt p, H.compare p (H.hash salt p) = true
  reject : ∀ salt p q, q ≠ p → H.compare q (H.hash salt p) = false

/-- The `jsonwebtoken` calls of the source with `SECRET_KEY` fixed: `sign p` is
the signed token of payload `p`; `verify t` checks the signature of `t` and
decodes it. -/
structure Jwt where
  sign : Payload → String
  verify : String → Option Payload

/-- A token signed with the key verifies to its own payload and is not the
empty string. -/
structure Jwt.Lawful (J : Jwt) : Prop where
  roundtrip : ∀ p, J.verify (J.sign p) = some p
  nonempty : ∀ p, J.sign p ≠ ""

/-- The Mongoose models of `server.js` over a store of type `σ`. -/
structure Db (σ : Type) where
  /-- The query `User.findOne({ email })`. -/
  findUserByEmail : σ → Option String → Except String (Option User)
  /-- The calls `new User({ email, password, role })` and `user.save()`. -/
  saveNewUser : σ → String → String → String → Except String σ
  /-- The calls `new Course({ title, description, instructorId })` and
  `course.save()`; returns the document, with its `_id` and default `students`. -/
  saveNewCourse : σ → String → String → ObjectId → Except String (Course × σ)
  /-- The query `Course.find().populate('instructorId', 'email role')`. -/
  findCourses : σ → Except String (List PopulatedCourse)
  /-- The query `Course.findById(courseId)`. -/
  findCourseById : σ → CourseIdField → Except String (Option Course)
  /-- The call `course.save()` on a document that was read from the store. -/
  saveCourse : σ → Course → Except String σ

/-! ## Helper functions (`server.js`, lines 45-58) -/

/-- The lifetime `expiresIn: '1h'`, in seconds. -/
def tokenLifetime : Nat := 3600

/-- The function `generateToken(user)` at clock reading `now` (seconds). -/
def generateToken (J : Jwt) (now : Nat) (user : User) : String :=
  J.sign { id := user.id, role := user.role, iat := now, exp := now + tokenLifetime }

/-- The call `jwt.verify(token, SECRET_KEY, cb)` at clock reading `now`: an
error when the signature check fails or when `now` has reached `exp`. -/
def jwtVerify (J : Jwt) (now : Nat) (token : String) : Except String Payload :=
  match J.verify token with
  | none => .error "invalid token"
  | some p => if p.exp ≤ now then .error "jwt expired" else .ok p

/-- What the middleware did with a request: it sent a response and returned
without calling `next`, or it set `req.user` and called `next()` once without
sending anything. -/
inductive AuthResult where
  | denied (status : Nat) (body : Body)
  | next (user : Payload)
deriving DecidableEq, Repr

/-- The middleware `authenticateToken`; `auth` is `req.header('Authorization')`. -/
def authenticateToken (J : Jwt) (now : Nat) (auth : Option String) : AuthResult :=
  if !truthy auth then .denied 403 (.text "Access Denied")
  else
    match jwtVerify J now (auth.getD "") with
    | .error _ => .denied 403 (.text "Invalid Token")
    | .ok user => .next user

/-- A route `app.METHOD(path, authenticateToken, handler)`: the handler runs
only when the middleware called `next`, and then with the `req.user` it set. -/
def withAuth {σ : Type} (J : Jwt) (now : Nat) (auth : Option String)
    (handler : Payload → σ → Result × σ) (s : σ) : Result × σ :=
  match authenticateToken J now auth with
  | .denied st b => (.sent st b, s)
  | .next user => handler user s

/-! ## Route handlers (`server.js`, lines 63-164) -/

/-- The handler of `POST /signup`. -/
def signup {σ : Type} (db : Db σ) (H : Hasher) (salt : Nat) (body : SignupBody) (s : σ) :
    Result × σ :=
  if !truthy body.email || !truthy body.password || !truthy body.role then
    (.sent 400 (.text "Please provide email, password, and role."), s)
  else
    match db.findUserByEmail s body.email with
    | .error e => (.threw e, s)
    | .ok (some _) => (.sent 400 (.text "User already exists."), s)
    | .ok none =>
      let hashedPassword := H.hash salt (body.password.getD "")
      match db.saveNewUser s (body.email.getD "") hashedPassword (body.role.getD "") with
      | .error e => (.threw e, s)
      | .ok s' => (.sent 201 (.message "User created successfully"), s')

/-- The handler of `POST /login`. `bcrypt.compare` rejects when the password
is undefined. -/
def login {σ : Type} (db : Db σ) (H : Hasher) (J : Jwt) (now : Nat) (body : LoginBody) (s : σ) :
    Result × σ :=
  match db.findUserByEmail s body.email with
  | .error e => (.threw e, s)
  | .ok none => (.sent 400 (.text "User not found."), s)
  | .ok (some user) =>
    match body.password with
    | none => (.threw "data and hash arguments required", s)
    | some password =>
      if !H.compare password user.password then (.sent 400 (.text "Invalid credentials."), s)
      else (.sent 200 (.token (generateToken J now user)), s)

/-- The handler of `GET /profile`, after the middleware. -/
def profile {σ : Type} (user : Payload) (s : σ) : Result × σ :=
  (.sent 200 (.profile "Welcome to your profile" user), s)

/-- The handler of `POST /course`, after the middleware. -/
def createCourse {σ : Type} (db : Db σ) (body : CourseBody) (user : Payload) (s : σ) :
    Result × σ :=
  if user.role ≠ "instructor" then
    (.sent 403 (.text "Access denied. Only instructors can create courses."), s)
  else if !truthy body.title || !truthy body.description then
    (.sent 400 (.text "Course title and description are required."), s)
  else
    match db.saveNewCourse s (body.title.getD "") (body.description.getD "") user.id with
    | .error e => (.threw e, s)
    | .ok (course, s') => (.sent 201 (.course "Course created successfully" course), s')

/-- The handler of `GET /courses`. -/
def listCourses {σ : Type} (db : Db σ) (s : σ) : Result × σ :=
  match db.findCourses s with
  | .error e => (.threw e, s)
  | .ok courses => (.sent 200 (.courses courses), s)

/-- The handler of `POST /enroll`, after the middleware. -/
def enroll {σ : Type} (db : Db σ) (body : EnrollBody) (user : Payload) (s : σ) :
    Result × σ :=
  if user.role ≠ "student" then
    (.sent 403 (.text "Access denied. Only students can enroll in courses."), s)
  else
    match db.findCourseById s body.courseId with
    | .error e => (.threw e, s)
    | .ok none => (.sent 404 (.text "Course not found."), s)
    | .ok (some course) =>
      if !course.students.contains user.id then
        match db.saveCourse s { course with students := course.students ++ [user.id] } with
        | .error e => (.threw e, s)
        | .ok s' => (.sent 200 (.message "Enrolled in course successfully"), s')
      else
        (.sent 400 (.text "Already enrolled in this course"), s)

/-- The handler of `POST /logout`, after the middleware. -/
def logout {σ : Type} (_user : Payload) (s : σ) : Result × σ :=
  (.sent 200 (.message "Logged out successfully"), s)

/-! ## The server -/

/-- A request to one of the seven routes. -/
inductive Request where
  | signup (body : SignupBody)
  | login (body : LoginBody)
  | profile (auth : Option String)
  | course (auth : Option String) (body : CourseBody)
  | courses
  | enroll (auth : Option String) (body : EnrollBody)
  | logout (auth : Option String)
deriving DecidableEq, Repr

/-- The `Authorization` header of a request to an authenticated route. -/
def Request.auth : Request → Option String
  | .profile a => a
  | .course a _ => a
  | .enroll a _ => a
  | .logout a => a
  | _ => none

/-- What a request finds outside the store: the clock reading in seconds and
the salt `bcrypt` draws. -/
structure Env where
  now : Nat
  salt : Nat
deriving DecidableEq, Repr

/-- The routing table of `server.js`. -/
def handle {σ : Type} (db : Db σ) (H : Hasher) (J : Jwt) (env : Env) (req : Request) (s : σ) :
    Result × σ :=
  match req with
  | .signup body => signup db H env.salt body s
  | .login body => login db H J env.now body s
  | .profile auth => withAuth J env.now auth profile s
  | .course auth body => withAuth J env.now auth (createCourse db body) s
  | .courses => listCourses db s
  | .enroll auth body => withAuth J env.now auth (enroll db body) s
  | .logout auth => withAuth J env.now auth logout s

/-! ## The in-memory store

The instance of `Db` that follows `userSchema` and `courseSchema`: a new
document is validated against its schema before it is written, ids are drawn
from a counter. -/

/-- The two collections and the source of fresh ObjectIds. -/
structure Store where
  users : List User
  courses : List Course
  nextId : ObjectId
deriving DecidableEq, Repr

/-- The store of a fresh database. -/
def Store.empty : Store := { users := [], courses := [], nextId := 0 }

/-- The validators of `userSchema`: the three paths are `required` (an empty
string does not satisfy `required`) and `role` has
`enum: ['student', 'instructor']`. -/
def validateUser (email password role : String) : Except String Unit :=
  if email = "" then .error "User validation failed: email: Path `email` is required."
  else if password = "" then
    .error "User validation failed: password: Path `password` is required."
  else if role = "" then .error "User validation failed: role: Path `role` is required."
  else if role ≠ "student" ∧ role ≠ "instructor" then
    .error ("User validation failed: role: `" ++ role ++
      "` is not a valid enum value for path `role`.")
  else .ok ()

/-- The validators of `courseSchema`: `title` and `description` are `required`
(`instructorId` is always given by the caller). -/
def validateCourse (title description : String) : Except String Unit :=
  if title = "" then .error "Course validation failed: title: Path `title` is required."
  else if description = "" then
    .error "Course validation failed: description: Path `description` is required."
  else .ok ()

/-- The error with which a query rejects when a value does not cast to an
ObjectId. -/
def castError (raw : String) : String :=
  "Cast to ObjectId failed for value \"" ++ raw ++
    "\" (type string) at path \"_id\" for model \"Course\""

/-- The write of `course.save()` for a loaded document: the first stored
document with the same `_id` takes the new contents. -/
def replaceCourse (c : Course) : List Course → List Course
  | [] => []
  | d :: ds => if d.id = c.id then c :: ds else d :: replaceCourse c ds

/-- The instructor reference of a course resolved by `populate`, with the
selected fields `email role` (and the `_id`). -/
def populate (users : List User) (c : Course) : PopulatedCourse :=
  { id := c.id, title := c.title, description := c.description,
    instructor := (users.find? (fun u => u.id == c.instructorId)).map
      (fun u => (u.id, u.email, u.role)),
    students := c.students }

/-- The Mongoose models over the in-memory store.

* `findOne({ email })` with `email` undefined finds no document.
* `save()` of a new user runs the schema validators, then the insert, which the
  unique index on `email` rejects for a duplicate.
* `findById(undefined)` resolves to null; `findById` of a string that does not
  cast to an ObjectId rejects with a CastError.
* `save()` of a loaded course writes the document back; `students` has no
  validator. -/
def memDb : Db Store where
  findUserByEmail s email :=
    match email with
    | none => .ok none
    | some e => .ok (s.users.find? (fun u => u.email == e))
  saveNewUser s email password role :=
    match validateUser email password role with
    | .error e => .error e
    | .ok _ =>
      if s.users.any (fun u => u.email == email) then
        .error "E11000 duplicate key error: email"
      else
        .ok { s with
              users := s.users ++ [{ id := s.nextId, email := email, password := password,
                                     role := role }],
              nextId := s.nextId + 1 }
  saveNewCourse s title description instructorId :=
    match validateCourse title description with
    | .error e => .error e
    | .ok _ =>
      let course : Course :=
        { id := s.nextId, title := title, description := description,
          instructorId := instructorId, students := [] }
      .ok (course, { s with courses := s.courses ++ [course], nextId := s.nextId + 1 })
  findCourses s := .ok (s.courses.map (populate s.users))
  findCourseById s courseId :=
    match courseId with
    | .absent => .ok none
    | .objectId i => .ok (s.courses.find? (fun c => c.id == i))
    | .malformed raw => .error (castError raw)
  saveCourse s course := .ok { s with courses := replaceCourse course s.courses }

/-- The store after a sequence of requests handled one at a time. -/
def run (H : Hasher) (J : Jwt) : Store → List (Env × Request) → Store
  | s, [] => s
  | s, (env, req) :: rest => run H J (handle memDb H J env req s).2 rest

/-! ## Sessions: the tokens that login has returned -/

/-- The store together with the tokens returned by login so far. -/
structure Sys where
  store : Store
  issued : List String
deriving DecidableEq, Repr

/-- The system before any request. -/
def Sys.init : Sys := { store := Store.empty, issued := [] }

/-- One request: the store moves as the handler says and a token in the
response is recorded as issued. -/
def Sys.step (H : Hasher) (J : Jwt) (env : Env) (req : Request) (sys : Sys) : Sys :=
  let r := handle memDb H J env req sys.store
  { store := r.2,
    issued := match r.1.token? with
      | some t => t :: sys.issued
      | none => sys.issued }

/-- The request presents no token, or one that login has returned. -/
def presentsIssued (issued : List String) (req : Request) : Bool :=
  match req.auth with
  | none => true
  | some t => issued.contains t

/-- The system after a sequence of requests, when every token presented is
one that login had returned before. -/
def Sys.run (H : Hasher) (J : Jwt) : Sys → List (Env × Request) → Option Sys
  | sys, [] => some sys
  | sys, (env, req) :: rest =>
    if presentsIssued sys.issued req then Sys.run H J (sys.step H J env req) rest else none

/-! ## The user-creation API (`controllers/userControllers.js`,
`services/userServices.js`) -/

/-- The Mongoose model `../models/userModel`, which is not among the sources:
`create` is `new User({ username, password })`, `save` is `user.save()` and
returns the document after the save, `username` reads `user.username`. -/
structure UserModel (σ δ : Type) where
  create : Option String → Option String → δ
  save : σ → δ → Except String (δ × σ)
  username : δ → Option String

/-- The body of `POST /api/users`. -/
structure CreateUserBody where
  username : Option String
  password : Option String
deriving DecidableEq, Repr

/-- The service function `createUser(username, password)`. -/
def userService.createUser {σ δ : Type} (M : UserModel σ δ) (username password : Option String)
    (s : σ) : Except String (δ × σ) :=
  let user := M.create username password
  match M.save s user with
  | .error e => .error e
  | .ok (user, s') => .ok (user, s')

/-- The controller `createUser(req, res)`. -/
def userController.createUser {σ δ : Type} (M : UserModel σ δ) (body : CreateUserBody) (s : σ) :
    Result × σ :=
  match userService.createUser M body.username body.password s with
  | .ok (user, s') =>
    (.sent 201 (.createdUser "User created successfully" (M.username user)), s')
  | .error msg => (.sent 400 (.failure "Error creating user" msg), s)

/-! ## Sample instances of the library interfaces -/

/-- A number in unary, closed by a dot, in front of `rest`. -/
def encNat (n : Nat) (rest : List Char) : List Char :=
  List.replicate n 'i' ++ '.' :: rest

/-- Reads back a number written by `encNat` and returns what follows it. -/
def decNat : List Char → Option (Nat × List Char)
  | [] => none
  | c :: cs =>
    if c = '.' then some (0, cs)
    else if c = 'i' then (decNat cs).map (fun r => (r.1 + 1, r.2))
    else none

/-- A clock reading in front of `rest`: the hours and the remaining seconds. -/
def encTime (n : Nat) (rest : List Char) : List Char :=
  encNat (n / 3600) (encNat (n % 3600) rest)

/-- Reads back a clock reading written by `encTime`. -/
def decTime (cs : List Char) : Option (Nat × List Char) :=
  match decNat cs with
  | none => none
  | some (q, r1) =>
    match decNat r1 with
    | none => none
    | some (r, r2) => some (3600 * q + r, r2)

/-- A sample signer: the token spells out the payload after a `J`. -/
def sampleJwt : Jwt where
  sign p := String.mk ('J' :: encNat p.id (encTime p.iat (encTime p.exp p.role.data)))
  verify t :=
    match t.data with
    | 'J' :: r0 =>
      match decNat r0 with
      | none => none
      | some (id, r1) =>
        match decTime r1 with
        | none => none
        | some (iat, r2) =>
          match decTime r2 with
          | none => none
          | some (exp, r3) => some { id := id, role := String.mk r3, iat := iat, exp := exp }
    | _ => none

/-- A sample hasher: the hash spells out the salt and the password after a `$`. -/
def sampleHasher : Hasher where
  hash salt p := String.mk ('$' :: encNat salt p.data)
  compare q h :=
    match h.data with
    | '$' :: r =>
      match decNat r with
      | none => false
      | some (_, rest) => rest == q.data
    | _ => false
  hash_ne salt p h := by
    have hd := congrArg String.data h
    simp at hd
  hash_ne_plain salt p h := by
    have hd := congrArg (fun t => t.data.length) h
    simp [encNat] at hd
    omega

/-- A database whose every operation fails with the error `boom`. -/
def failingDb : Db Unit where
  findUserByEmail _ _ := .error "boom"
  saveNewUser _ _ _ _ := .error "boom"
  saveNewCourse _ _ _ _ := .error "boom"
  findCourses _ := .error "boom"
  findCourseById _ _ := .error "boom"
  saveCourse _ _ := .error "boom"

/-- A user model that keeps the username and whose `save` always succeeds. -/
def sampleUserModel : UserModel Unit (Option String) where
  create username _ := username
  save s user := .ok (user, s)
  username user := user

/-- A user model whose `save` always fails with the error `boom`. -/
def failingUserModel : UserModel Unit (Option String) where
  create username _ := username
  save _ _ := .error "boom"
  username user := user

/-! ## The invariant of the sessions and sample runs -/

/-- The invariant of the system: ids are fresh and identify one user, every
token issued verifies only to the id and role of a stored user, and the
instructor of every course is a stored user whose role is `instructor`. -/
structure Inv (J : Jwt) (sys : Sys) : Prop where
  fresh : ∀ u ∈ sys.store.users, u.id < sys.store.nextId
  uniq : ∀ u ∈ sys.store.users, ∀ v ∈ sys.store.users, u.id = v.id → u = v
  tokens : ∀ t ∈ sys.issued, ∀ p, J.verify t = some p →
    ∃ u ∈ sys.store.users, u.id = p.id ∧ u.role = p.role
  instr : ∀ c ∈ sys.store.courses,
    ∃ u ∈ sys.store.users, u.id = c.instructorId ∧ u.role = "instructor"

/-- A sample session: an instructor and a student sign up and log in, the
instructor creates a course, the student tries to, then enrolls twice. -/
def sampleSession : List (Env × Request) :=
  [ (⟨0, 0⟩, .signup ⟨some "t@x.com", some "pw", some "instructor"⟩),
    (⟨1, 0⟩, .signup ⟨some "s@x.com", some "pw", some "student"⟩),
    (⟨2, 0⟩, .login ⟨some "t@x.com", some "pw"⟩),
    (⟨3, 0⟩, .login ⟨some "s@x.com", some "pw"⟩),
    (⟨4, 0⟩, .course (some (sampleJwt.sign ⟨0, "instructor", 2, 3602⟩))
      ⟨some "Logic", some "An introduction"⟩),
    (⟨5, 0⟩, .course (some (sampleJwt.sign ⟨1, "student", 3, 3603⟩))
      ⟨some "Sets", some "Another one"⟩),
    (⟨6, 0⟩, .enroll (some (sampleJwt.sign ⟨1, "student", 3, 3603⟩)) ⟨.objectId 2⟩),
    (⟨7, 0⟩, .enroll (some (sampleJwt.sign ⟨1, "student", 3, 3603⟩)) ⟨.objectId 2⟩) ]

/-- The system after the sample session. -/
def sampleSys : Sys :=
  (Sys.run sampleHasher sampleJwt Sys.init sampleSession).getD Sys.init

/-! ## Lemmas on the sample instances -/

theorem decNat_encNat (n : Nat) (rest : List Char) : decNat (encNat n rest) = some (n, rest) := by
  induction n with
  | zero => simp [encNat, decNat]
  | succ k ih =>
    have h : encNat (k + 1) rest = 'i' :: encNat k rest := by
      simp [encNat, List.replicate_succ]
    rw [h, decNat]
    simp [ih]

theorem decTime_encTime (n : Nat) (rest : List Char) :
    decTime (encTime n rest) = some (n, rest) := by
  simp [decTime, encTime, decNat_encNat, Nat.div_add_mod]

theorem sampleJwt_lawful : sampleJwt.Lawful where
  roundtrip p := by
    simp [sampleJwt, decNat_encNat, decTime_encTime]
  nonempty p := by
    intro h
    have := congrArg String.data h
    simp [sampleJwt] at this

theorem sampleHasher_lawful : sampleHasher.Lawful where
  accept salt p := by
    simp [sampleHasher, decNat_encNat]
  reject salt p q hne := by
    simp only [sampleHasher, decNat_encNat]
    simp only [beq_eq_false_iff_ne, ne_eq]
    intro h
    exact hne (String.ext h.symm)

/-! ## Lemmas on the in-memory store -/

theorem find?_first {cid : ObjectId} {c : Course} {pre post : List Course}
    (hpre : ∀ d ∈ pre, d.id ≠ cid) (hc : c.id = cid) :
    (pre ++ c :: post).find? (fun d => d.id == cid) = some c := by
  induction pre with
  | nil => simp [hc]
  | cons d ds ih =>
    have hd : d.id ≠ cid := hpre d (List.mem_cons_self _ _)
    have hds : ∀ e ∈ ds, e.id ≠ cid := fun e he => hpre e (List.mem_cons_of_mem _ he)
    have hb : (d.id == cid) = false := by simpa using hd
    simp [List.find?_cons, hb, ih hds]

theorem replaceCourse_first {c c' : Course} {pre post : List Course}
    (hpre : ∀ d ∈ pre, d.id ≠ c'.id) (hc : c.id = c'.id) :
    replaceCourse c' (pre ++ c :: post) = pre ++ c' :: post := by
  induction pre with
  | nil => simp [replaceCourse, hc]
  | cons d ds ih =>
    have hd : d.id ≠ c'.id := hpre d (List.mem_cons_self _ _)
    have hds : ∀ e ∈ ds, e.id ≠ c'.id := fun e he => hpre e (List.mem_cons_of_mem _ he)
    simp [replaceCourse, hd, ih hds]

theorem find?_none_of_forall {cid : ObjectId} {cs : List Course}
    (h : ∀ d ∈ cs, d.id ≠ cid) : cs.find? (fun d => d.id == cid) = none := by
  induction cs with
  | nil => rfl
  | cons d ds ih =>
    have hd : d.id ≠ cid := h d (List.mem_cons_self _ _)
    have hb : (d.id == cid) = false := by simpa using hd
    simp [List.find?_cons, hb, ih (fun e he => h e (List.mem_cons_of_mem _ he))]

theorem truthy_some {v : String} (h : v ≠ "") : truthy (some v) = true := by
  simp [truthy, h]

/-- The enroll handler on a student who is among the students of the course
found: 400, store unchanged. -/
theorem enroll_already (body : EnrollBody) (user : Payload) (s : Store) (c : Course)
    (pre post : List Course) (hr : user.role = "student") (hb : body.courseId = .objectId c.id)
    (hs : s.courses = pre ++ c :: post) (hpre : ∀ d ∈ pre, d.id ≠ c.id)
    (hmem : user.id ∈ c.students) :
    enroll memDb body user s = (.sent 400 (.text "Already enrolled in this course"), s) := by
  have hf : s.courses.find? (fun d => d.id == c.id) = some c := by
    rw [hs]; exact find?_first hpre rfl
  simp [enroll, hr, memDb, hb, hf, hmem]

/-- The enroll handler on a student who is not among the students of the
course found: 200, and the id is appended to the students of that course. -/
theorem enroll_appends (body : EnrollBody) (user : Payload) (s : Store) (c : Course)
    (pre post : List Course) (hr : user.role = "student") (hb : body.courseId = .objectId c.id)
    (hs : s.courses = pre ++ c :: post) (hpre : ∀ d ∈ pre, d.id ≠ c.id)
    (hmem : user.id ∉ c.students) :
    enroll memDb body user s =
      (.sent 200 (.message "Enrolled in course successfully"),
       { users := s.users,
         courses := pre ++ { c with students := c.students ++ [user.id] } :: post,
         nextId := s.nextId }) := by
  have hf : s.courses.find? (fun d => d.id == c.id) = some c := by
    rw [hs]; exact find?_first hpre rfl
  have hrep : replaceCourse { c with students := c.students ++ [user.id] } s.courses =
      pre ++ { c with students := c.students ++ [user.id] } :: post := by
    rw [hs]; exact replaceCourse_first hpre rfl
  simp [enroll, hr, memDb, hb, hf, hmem, hrep]

/-- The enroll handler, case by case, in the order of the source: 403 when the
role is not `student` (whatever the course id); else, when the course id does
not cast to an ObjectId, the query rejects and no response is sent; else 404
when the course id is absent or no stored course has it; else 400
`Already enrolled in this course` when the id of the identity is among the
students of the course found (the first with that id); else 200, and the store
differs only in that course, whose students have the id appended at the end.
In all but the last case the store is unchanged. -/
theorem enroll_outcomes (body : EnrollBody) (user : Payload) (s : Store) :
    (user.role ≠ "student" →
      enroll memDb body user s =
        (.sent 403 (.text "Access denied. Only students can enroll in courses."), s)) ∧
    (∀ raw, user.role = "student" → body.courseId = .malformed raw →
      enroll memDb body user s = (.threw (castError raw), s)) ∧
    (user.role = "student" → (∀ raw, body.courseId ≠ .malformed raw) →
      (∀ d ∈ s.courses, body.courseId ≠ .objectId d.id) →
      enroll memDb body user s = (.sent 404 (.text "Course not found."), s)) ∧
    (∀ (c : Course) (pre post : List Course), user.role = "student" →
      body.courseId = .objectId c.id → s.courses = pre ++ c :: post →
      (∀ d ∈ pre, d.id ≠ c.id) → user.id ∈ c.students →
      enroll memDb body user s = (.sent 400 (.text "Already enrolled in this course"), s)) ∧
    (∀ (c : Course) (pre post : List Course), user.role = "student" →
      body.courseId = .objectId c.id → s.courses = pre ++ c :: post →
      (∀ d ∈ pre, d.id ≠ c.id) → user.id ∉ c.students →
      enroll memDb body user s =
        (.sent 200 (.message "Enrolled in course successfully"),
         { users := s.users,
           courses := pre ++ { c with students := c.students ++ [user.id] } :: post,
           nextId := s.nextId })) := by
  refine ⟨?_, ?_, ?_, ?_, ?_⟩
  · intro h
    simp [enroll, h]
  · intro raw hr hb
    simp [enroll, hr, memDb, hb]
  · intro hr hwf hnone
    cases hb : body.courseId with
    | absent => simp [enroll, hr, memDb, hb]
    | malformed raw => exact absurd hb (hwf raw)
    | objectId i =>
      have hf : s.courses.find? (fun d => d.id == i) = none :=
        find?_none_of_forall (fun d hd hdi => hnone d hd (by rw [hb, hdi]))
      simp [enroll, hr, memDb, hb, hf]
  · intro c pre post hr hb hs hpre hmem
    exact enroll_already body user s c pre post hr hb hs hpre hmem
  · intro c pre post hr hb hs hpre hmem
    exact enroll_appends body user s c pre post hr hb hs hpre hmem

/-- The five outcomes of `enroll_outcomes` on a store with one course: 403, no
response, 404, 400 and 200. -/
theorem enroll_outcomes_sample :
    enroll memDb ⟨.objectId 9⟩ ⟨3, "instructor", 0, 3600⟩
        ⟨[], [⟨1, "t", "d", 0, [2]⟩], 4⟩ =
      (.sent 403 (.text "Access denied. Only students can enroll in courses."),
        ⟨[], [⟨1, "t", "d", 0, [2]⟩], 4⟩) ∧
    enroll memDb ⟨.malformed "abc"⟩ ⟨3, "student", 0, 3600⟩ ⟨[], [⟨1, "t", "d", 0, [2]⟩], 4⟩ =
      (.threw (castError "abc"), ⟨[], [⟨1, "t", "d", 0, [2]⟩], 4⟩) ∧
    enroll memDb ⟨.objectId 9⟩ ⟨3, "student", 0, 3600⟩ ⟨[], [⟨1, "t", "d", 0, [2]⟩], 4⟩ =
      (.sent 404 (.text "Course not found."), ⟨[], [⟨1, "t", "d", 0, [2]⟩], 4⟩) ∧
    enroll memDb ⟨.objectId 1⟩ ⟨2, "student", 0, 3600⟩ ⟨[], [⟨1, "t", "d", 0, [2]⟩], 4⟩ =
      (.sent 400 (.text "Already enrolled in this course"),
        ⟨[], [⟨1, "t", "d", 0, [2]⟩], 4⟩) ∧
    enroll memDb ⟨.objectId 1⟩ ⟨3, "student", 0, 3600⟩ ⟨[], [⟨1, "t", "d", 0, [2]⟩], 4⟩ =
      (.sent 200 (.message "Enrolled in course successfully"),
        ⟨[], [⟨1, "t", "d", 0, [2, 3]⟩], 4⟩) :=
  ⟨(enroll_outcomes ⟨.objectId 9⟩ ⟨3, "instructor", 0, 3600⟩
      ⟨[], [⟨1, "t", "d", 0, [2]⟩], 4⟩).1 (by decide),
   (enroll_outcomes ⟨.malformed "abc"⟩ ⟨3, "student", 0, 3600⟩
      ⟨[], [⟨1, "t", "d", 0, [2]⟩], 4⟩).2.1 "abc" rfl rfl,
   (enroll_outcomes ⟨.objectId 9⟩ ⟨3, "student", 0, 3600⟩
      ⟨[], [⟨1, "t", "d", 0, [2]⟩], 4⟩).2.2.1 rfl (fun _ h => nomatch h) (by decide),
   (enroll_outcomes ⟨.objectId 1⟩ ⟨2, "student", 0, 3600⟩
      ⟨[], [⟨1, "t", "d", 0, [2]⟩], 4⟩).2.2.2.1 ⟨1, "t", "d", 0, [2]⟩ [] [] rfl rfl rfl
      (by decide) (by decide),
   (enroll_outcomes ⟨.objectId 1⟩ ⟨3, "student", 0, 3600⟩
      ⟨[], [⟨1, "t", "d", 0, [2]⟩], 4⟩).2.2.2.2 ⟨1, "t", "d", 0, [2]⟩ [] [] rfl rfl rfl
      (by decide) (by decide)⟩

/-- C7, the failing input. A student identity and the body `courseId: 'abc'`:
the claim says 404 (the id resolves to no course), but `Course.findById`
rejects because `abc` does not cast to an ObjectId, the handler catches
nothing, and no response is sent: not the 404, nor any of the four outcomes.
The store is unchanged. -/
theorem enroll_malformed_courseId :
    (enroll memDb ⟨.malformed "abc"⟩ ⟨3, "student", 0, 3600⟩
      ⟨[], [⟨1, "t", "d", 0, [2]⟩], 4⟩).1.status? = none ∧
    (enroll memDb ⟨.malformed "abc"⟩ ⟨3, "student", 0, 3600⟩
      ⟨[], [⟨1, "t", "d", 0, [2]⟩], 4⟩).1.status? ≠ some 404 ∧
    (enroll memDb ⟨.malformed "abc"⟩ ⟨3, "student", 0, 3600⟩
      ⟨[], [⟨1, "t", "d", 0, [2]⟩], 4⟩).2 = ⟨[], [⟨1, "t", "d", 0, [2]⟩], 4⟩ ∧
    (enroll memDb ⟨.malformed "abc"⟩ ⟨3, "student", 0, 3600⟩ Store.empty).1.status? = none ∧
    (withAuth sampleJwt 5 (some "Ji....iiiiii.student")
      (enroll memDb ⟨.malformed "abc"⟩) Store.empty).1.status? = none := by
  refine ⟨rfl, by decide, rfl, rfl, ?_⟩
  decide

/-- C2. The middleware decides every request in one of three ways. With the
header absent or empty it answers 403 `Access Denied`; with a header whose
signature check fails or whose expiry has been reached it answers 403
`Invalid Token`; in both cases `next` is not called, the handler of the route
does not run and the store is as before. With a header that verifies it sends
nothing, sets `req.user` to the decoded payload and calls `next`, so that the
handler of the route runs on that payload. The three conditions exclude one
another and cover every header. -/
theorem authenticateToken_decides (J : Jwt) (now : Nat) (auth : Option String) :
    ((auth = none ∨ auth = some "") →
      authenticateToken J now auth = .denied 403 (.text "Access Denied")) ∧
    (∀ t, auth = some t → t ≠ "" →
      (J.verify t = none ∨ ∃ p, J.verify t = some p ∧ p.exp ≤ now) →
      authenticateToken J now auth = .denied 403 (.text "Invalid Token")) ∧
    (∀ t p, auth = some t → t ≠ "" → J.verify t = some p → now < p.exp →
      authenticateToken J now auth = .next p) ∧
    (∀ (σ : Type) (handler : Payload → σ → Result × σ) (s : σ),
      (∀ st b, authenticateToken J now auth = .denied st b →
        withAuth J now auth handler s = (.sent st b, s)) ∧
      (∀ p, authenticateToken J now auth = .next p →
        withAuth J now auth handler s = handler p s)) ∧
    ((auth = none ∨ auth = some "") ∨
      (∃ t, auth = some t ∧ t ≠ "" ∧
        (J.verify t = none ∨ ∃ p, J.verify t = some p ∧ p.exp ≤ now)) ∨
      (∃ t p, auth = some t ∧ t ≠ "" ∧ J.verify t = some p ∧ now < p.exp)) := by
  refine ⟨?_, ?_, ?_, ?_, ?_⟩
  · rintro (h | h) <;> simp [authenticateToken, truthy, h]
  · rintro t rfl ht (hv | ⟨p, hv, hexp⟩)
    · simp [authenticateToken, truthy, ht, jwtVerify, hv]
    · simp [authenticateToken, truthy, ht, jwtVerify, hv, hexp]
  · rintro t p rfl ht hv hexp
    simp [authenticateToken, truthy, ht, jwtVerify, hv, Nat.not_le.mpr hexp]
  · intro σ handler s
    constructor
    · intro st b h
      simp [withAuth, h]
    · intro p h
      simp [withAuth, h]
  · cases auth with
    | none => exact Or.inl (Or.inl rfl)
    | some t =>
      by_cases ht : t = ""
      · exact Or.inl (Or.inr (by rw [ht]))
      · cases hv : J.verify t with
        | none => exact Or.inr (Or.inl ⟨t, rfl, ht, Or.inl hv⟩)
        | some p =>
          by_cases hexp : p.exp ≤ now
          · exact Or.inr (Or.inl ⟨t, rfl, ht, Or.inr ⟨p, hv, hexp⟩⟩)
          · exact Or.inr (Or.inr ⟨t, p, rfl, ht, hv, Nat.not_le.mp hexp⟩)

/-- Witness for C2: no header, an empty header, a header that is no token, an
expired token and a valid token of the sample signer. -/
theorem authenticateToken_decides_witness :
    authenticateToken sampleJwt 5 none = .denied 403 (.text "Access Denied") ∧
    authenticateToken sampleJwt 5 (some "") = .denied 403 (.text "Access Denied") ∧
    authenticateToken sampleJwt 5 (some "x") = .denied 403 (.text "Invalid Token") ∧
    authenticateToken sampleJwt 5 (some "Ji....iiii.student") =
      .denied 403 (.text "Invalid Token") ∧
    authenticateToken sampleJwt 5 (some "Ji....iiiiii.student") =
      .next ⟨1, "student", 0, 6⟩ :=
  ⟨(authenticateToken_decides sampleJwt 5 none).1 (Or.inl rfl),
   (authenticateToken_decides sampleJwt 5 (some "")).1 (Or.inr rfl),
   (authenticateToken_decides sampleJwt 5 (some "x")).2.1 "x" rfl (by decide)
     (Or.inl (by decide)),
   (authenticateToken_decides sampleJwt 5 (some "Ji....iiii.student")).2.1 "Ji....iiii.student"
     rfl (by decide) (Or.inr ⟨⟨1, "student", 0, 4⟩, by decide, by decide⟩),
   (authenticateToken_decides sampleJwt 5 (some "Ji....iiiiii.student")).2.2.1
     "Ji....iiiiii.student" ⟨1, "student", 0, 6⟩ rfl (by decide) (by decide) (by decide)⟩

/-- C6. Course creation is gated on the role of the identity, before the
fields are looked at: any role other than `instructor` gets 403 and the store
is unchanged, whatever the body; an instructor with a non-empty title and
description gets 201 with the new course, and the store gains exactly that
course (the given title and description, the id of the identity as
instructor, no students); an instructor with a title or description missing
or empty gets 400 and the store is unchanged. -/
theorem createCourse_gated (body : CourseBody) (user : Payload) (s : Store) :
    (user.role ≠ "instructor" →
      createCourse memDb body user s =
        (.sent 403 (.text "Access denied. Only instructors can create courses."), s)) ∧
    (∀ title description, user.role = "instructor" → body.title = some title →
      body.description = some description → title ≠ "" → description ≠ "" →
      createCourse memDb body user s =
        (.sent 201 (.course "Course created successfully"
            { id := s.nextId, title := title, description := description,
              instructorId := user.id, students := [] }),
         { users := s.users,
           courses := s.courses ++ [⟨s.nextId, title, description, user.id, []⟩],
           nextId := s.nextId + 1 })) ∧
    (user.role = "instructor" → (truthy body.title = false ∨ truthy body.description = false) →
      createCourse memDb body user s =
        (.sent 400 (.text "Course title and description are required."), s)) := by
  refine ⟨?_, ?_, ?_⟩
  · intro h
    simp [createCourse, h]
  · intro title description hr ht hd htne hdne
    simp [createCourse, hr, ht, hd, truthy, htne, hdne, memDb, validateCourse]
  · rintro hr (h | h) <;> simp [createCourse, hr, h]

/-- Witness for C6: a student, an instructor with both fields, and an
instructor without a description, on the empty store. -/
theorem createCourse_gated_witness :
    createCourse memDb ⟨some "t", some "d"⟩ ⟨3, "student", 0, 3600⟩ Store.empty =
      (.sent 403 (.text "Access denied. Only instructors can create courses."), Store.empty) ∧
    createCourse memDb ⟨some "t", some "d"⟩ ⟨3, "instructor", 0, 3600⟩ Store.empty =
      (.sent 201 (.course "Course created successfully" ⟨0, "t", "d", 3, []⟩),
        ⟨[], [⟨0, "t", "d", 3, []⟩], 1⟩) ∧
    createCourse memDb ⟨some "t", none⟩ ⟨3, "instructor", 0, 3600⟩ Store.empty =
      (.sent 400 (.text "Course title and description are required."), Store.empty) :=
  ⟨(createCourse_gated ⟨some "t", some "d"⟩ ⟨3, "student", 0, 3600⟩ Store.empty).1 (by decide),
   (createCourse_gated ⟨some "t", some "d"⟩ ⟨3, "instructor", 0, 3600⟩ Store.empty).2.1
     "t" "d" rfl rfl rfl (by decide) (by decide),
   (createCourse_gated ⟨some "t", none⟩ ⟨3, "instructor", 0, 3600⟩ Store.empty).2.2
     rfl (Or.inr rfl)⟩

theorem findUser_none {users : List User} {email : String}
    (h : ∀ u ∈ users, u.email ≠ email) : users.find? (fun u => u.email == email) = none := by
  rw [List.find?_eq_none]
  intro u hu
  simpa using h u hu

theorem findUser_some (users : List User) (email : String)
    (h : ∃ u ∈ users, u.email = email) :
    ∃ v, users.find? (fun u => u.email == email) = some v := by
  cases hf : users.find? (fun u => u.email == email) with
  | some v => exact ⟨v, rfl⟩
  | none =>
    rw [List.find?_eq_none] at hf
    obtain ⟨u, hu, he⟩ := h
    exact absurd (by simpa using he) (hf u hu)

theorem validateUser_ok {email password role : String} (he : email ≠ "") (hp : password ≠ "")
    (hr : role = "student" ∨ role = "instructor") :
    validateUser email password role = .ok () := by
  rcases hr with hr | hr <;> simp [validateUser, he, hp, hr]

/-- A signup with the three fields non-empty, a role of the schema and an
email no stored user has: 201, and the store gains the one user. -/
theorem signup_created (H : Hasher) (salt : Nat) (email password role : String) (s : Store)
    (he : email ≠ "") (hp : password ≠ "") (hr : role = "student" ∨ role = "instructor")
    (hnew : ∀ u ∈ s.users, u.email ≠ email) :
    signup memDb H salt ⟨some email, some password, some role⟩ s =
      (.sent 201 (.message "User created successfully"),
       { users := s.users ++ [⟨s.nextId, email, H.hash salt password, role⟩],
         courses := s.courses, nextId := s.nextId + 1 }) := by
  have hv := validateUser_ok he (H.hash_ne salt password) hr
  have hrne : role ≠ "" := by rcases hr with hr | hr <;> simp [hr]
  have hex : ¬ ∃ x ∈ s.users, x.email = email := fun ⟨x, hx, hxe⟩ => hnew x hx hxe
  simp [signup, truthy, he, hp, hrne, memDb, findUser_none hnew, hv, hex]

/-- What a signup that answered 201 was given. -/
theorem signup_201_inv (H : Hasher) (salt : Nat) (email password role : String) (s : Store)
    (hok : (signup memDb H salt ⟨some email, some password, some role⟩ s).1.status? = some 201) :
    email ≠ "" ∧ password ≠ "" ∧ (role = "student" ∨ role = "instructor") ∧
      ∀ u ∈ s.users, u.email ≠ email := by
  by_cases he : email = ""
  · simp [signup, truthy, he, Result.status?] at hok
  by_cases hp : password = ""
  · simp [signup, truthy, hp, Result.status?] at hok
  by_cases hrne : role = ""
  · simp [signup, truthy, hrne, Result.status?] at hok
  by_cases hex : ∃ u ∈ s.users, u.email = email
  · obtain ⟨v, hv⟩ := findUser_some _ _ hex
    simp [signup, truthy, he, hp, hrne, memDb, hv, Result.status?] at hok
  have hnew : ∀ u ∈ s.users, u.email ≠ email := fun u hu hue => hex ⟨u, hu, hue⟩
  by_cases hr : role = "student" ∨ role = "instructor"
  · exact ⟨he, hp, hr, hnew⟩
  · have hr1 : role ≠ "student" := fun h => hr (Or.inl h)
    have hr2 : role ≠ "instructor" := fun h => hr (Or.inr h)
    simp [signup, truthy, he, hp, hrne, memDb, findUser_none hnew, validateUser,
      H.hash_ne salt password, hr1, hr2, Result.status?] at hok

/-- C3 as stated fails: with email, password and role all present and an email
no stored user has, a role outside the enum of `userSchema` makes `user.save()`
reject; the handler sends no response (so no 201) and adds no user. -/
theorem signup_role_outside_schema :
    (signup memDb sampleHasher 0 ⟨some "a@x.com", some "pw", some "admin"⟩
      Store.empty).1.status? = none ∧
    (signup memDb sampleHasher 0 ⟨some "a@x.com", some "pw", some "admin"⟩
      Store.empty).1.status? ≠ some 201 ∧
    (signup memDb sampleHasher 0 ⟨some "a@x.com", some "pw", some "admin"⟩
      Store.empty).2 = Store.empty := by
  decide

/-- C3, amended. A signup with email, password and role all present, a role
that is `student` or `instructor` and an email no stored user has answers 201
with the body `message: User created successfully`, and the store gains exactly
one user, with the email and role given and the hash of the password given as
its password, which is never the plaintext itself; the other users and the
courses are as before. A signup with a
field missing or empty answers 400, as does one with all fields present and an
email some stored user has, and both leave the store unchanged. No signup
response carries a token. -/
theorem signup_contract (H : Hasher) (salt : Nat) (body : SignupBody) (s : Store) :
    (∀ email password role, body = ⟨some email, some password, some role⟩ →
      email ≠ "" → password ≠ "" → (role = "student" ∨ role = "instructor") →
      (∀ u ∈ s.users, u.email ≠ email) →
      signup memDb H salt body s =
          (.sent 201 (.message "User created successfully"),
           { users := s.users ++ [⟨s.nextId, email, H.hash salt password, role⟩],
             courses := s.courses, nextId := s.nextId + 1 }) ∧
        H.hash salt password ≠ password) ∧
    ((truthy body.email = false ∨ truthy body.password = false ∨ truthy body.role = false) →
      signup memDb H salt body s =
        (.sent 400 (.text "Please provide email, password, and role."), s)) ∧
    (∀ email, body.email = some email → email ≠ "" → truthy body.password = true →
      truthy body.role = true → (∃ u ∈ s.users, u.email = email) →
      signup memDb H salt body s = (.sent 400 (.text "User already exists."), s)) ∧
    (signup memDb H salt body s).1.token? = none := by
  refine ⟨?_, ?_, ?_, ?_⟩
  · rintro email password role rfl he hp hr hnew
    exact ⟨signup_created H salt email password role s he hp hr hnew,
      H.hash_ne_plain salt password⟩
  · rintro (h | h | h) <;> simp [signup, h]
  · intro email hb he hp hr hex
    obtain ⟨v, hv⟩ := findUser_some _ _ hex
    simp [signup, hb, truthy_some he, hp, hr, memDb, hv]
  · unfold signup
    split
    · rfl
    · split
      · rfl
      · rfl
      · dsimp only
        split <;> rfl

/-- Witness for C3: a student signs up on the empty store; a signup without a
role; a signup with the email of a stored user. -/
theorem signup_contract_witness :
    (signup memDb sampleHasher 0 ⟨some "a@x.com", some "pw", some "student"⟩ Store.empty =
        (.sent 201 (.message "User created successfully"),
          ⟨[⟨0, "a@x.com", sampleHasher.hash 0 "pw", "student"⟩], [], 1⟩) ∧
      sampleHasher.hash 0 "pw" ≠ "pw") ∧
    signup memDb sampleHasher 0 ⟨some "a@x.com", some "pw", none⟩ Store.empty =
      (.sent 400 (.text "Please provide email, password, and role."), Store.empty) ∧
    signup memDb sampleHasher 0 ⟨some "a@x.com", some "pw2", some "instructor"⟩
        ⟨[⟨0, "a@x.com", "$.pw", "student"⟩], [], 1⟩ =
      (.sent 400 (.text "User already exists."), ⟨[⟨0, "a@x.com", "$.pw", "student"⟩], [], 1⟩) :=
  ⟨(signup_contract sampleHasher 0 ⟨some "a@x.com", some "pw", some "student"⟩ Store.empty).1
      "a@x.com" "pw" "student" rfl (by decide) (by decide) (Or.inl rfl) (by simp [Store.empty]),
   (signup_contract sampleHasher 0 ⟨some "a@x.com", some "pw", none⟩ Store.empty).2.1
      (Or.inr (Or.inr rfl)),
   (signup_contract sampleHasher 0 ⟨some "a@x.com", some "pw2", some "instructor"⟩
      ⟨[⟨0, "a@x.com", "$.pw", "student"⟩], [], 1⟩).2.2.1 "a@x.com" rfl (by decide) rfl rfl
      ⟨⟨0, "a@x.com", "$.pw", "student"⟩, by simp, rfl⟩⟩

/-- C4 as stated fails: the store has a user with the email of the request, but
the password supplied is the empty string (or is absent), and the answer is the
400 of the missing-fields check, which comes first, not `User already exists.` -/
theorem signup_empty_password_existing_email :
    signup memDb sampleHasher 0 ⟨some "a@x.com", some "", some "student"⟩
        ⟨[⟨0, "a@x.com", "$.pw", "student"⟩], [], 1⟩ =
      (.sent 400 (.text "Please provide email, password, and role."),
        ⟨[⟨0, "a@x.com", "$.pw", "student"⟩], [], 1⟩) ∧
    signup memDb sampleHasher 0 ⟨some "a@x.com", none, some "student"⟩
        ⟨[⟨0, "a@x.com", "$.pw", "student"⟩], [], 1⟩ =
      (.sent 400 (.text "Please provide email, password, and role."),
        ⟨[⟨0, "a@x.com", "$.pw", "student"⟩], [], 1⟩) := by
  decide

/-- C4, amended. For every store with a user whose email is `e` and every
signup whose email is `e` and whose password and role are present and
non-empty, whatever they are (the role need not be one of the schema), the
answer is 400 `User already exists.` and the store is unchanged. -/
theorem signup_existing_email (H : Hasher) (salt : Nat) (s : Store) (u : User)
    (password role : String) (hu : u ∈ s.users) (he : u.email ≠ "") (hp : password ≠ "")
    (hr : role ≠ "") :
    signup memDb H salt ⟨some u.email, some password, some role⟩ s =
      (.sent 400 (.text "User already exists."), s) := by
  obtain ⟨v, hv⟩ := findUser_some s.users u.email ⟨u, hu, rfl⟩
  simp [signup, truthy, he, hp, hr, memDb, hv]

/-- Witness for C4: a second signup with a stored email, another password and
a role outside the schema. -/
theorem signup_existing_email_witness :
    signup memDb sampleHasher 7 ⟨some "a@x.com", some "other", some "admin"⟩
        ⟨[⟨0, "a@x.com", "$.pw", "student"⟩], [], 1⟩ =
      (.sent 400 (.text "User already exists."), ⟨[⟨0, "a@x.com", "$.pw", "student"⟩], [], 1⟩) :=
  signup_existing_email sampleHasher 7 ⟨[⟨0, "a@x.com", "$.pw", "student"⟩], [], 1⟩
    ⟨0, "a@x.com", "$.pw", "student"⟩ "other" "admin" (by simp) (by decide) (by decide)
    (by decide)

theorem findUser_appended (users : List User) (u : User)
    (h : ∀ v ∈ users, v.email ≠ u.email) :
    (users ++ [u]).find? (fun v => v.email == u.email) = some u := by
  rw [List.find?_append, findUser_none h]
  simp

/-- C5. Signup, then login. With a hasher that accepts the password a hash was
made from and no other, and a signer whose tokens verify to their payload:
after a signup that answered 201 for `email`, `password`, `role`, the store
holds the user with that email, the role given and the next id; a login with
the same email and password answers 200 with a token that the middleware, at
any time before the expiry (one hour after the login), verifies to the id of
that user and the role given at signup; a login with the same email and any
other password answers 400 `Invalid credentials.`, carrying no token; and on
any store a login with an email no stored user has answers 400
`User not found.` -/
theorem signup_then_login (H : Hasher) (J : Jwt) (hH : H.Lawful) (hJ : J.Lawful)
    (salt now : Nat) (email password role : String) (s : Store)
    (hok : (signup memDb H salt ⟨some email, some password, some role⟩ s).1.status? =
      some 201) :
    ((⟨s.nextId, email, H.hash salt password, role⟩ : User) ∈
        (signup memDb H salt ⟨some email, some password, some role⟩ s).2.users ∧
      login memDb H J now ⟨some email, some password⟩
          (signup memDb H salt ⟨some email, some password, some role⟩ s).2 =
        (.sent 200 (.token (J.sign ⟨s.nextId, role, now, now + 3600⟩)),
          (signup memDb H salt ⟨some email, some password, some role⟩ s).2) ∧
      ∀ later, later < now + 3600 →
        authenticateToken J later (some (J.sign ⟨s.nextId, role, now, now + 3600⟩)) =
          .next ⟨s.nextId, role, now, now + 3600⟩) ∧
    (∀ q, q ≠ password →
      login memDb H J now ⟨some email, some q⟩
          (signup memDb H salt ⟨some email, some password, some role⟩ s).2 =
        (.sent 400 (.text "Invalid credentials."),
          (signup memDb H salt ⟨some email, some password, some role⟩ s).2)) ∧
    (∀ (t : Store) (e : String) (pw : Option String), (∀ u ∈ t.users, u.email ≠ e) →
      login memDb H J now ⟨some e, pw⟩ t = (.sent 400 (.text "User not found."), t)) := by
  obtain ⟨he, hp, hr, hnew⟩ := signup_201_inv H salt email password role s hok
  rw [signup_created H salt email password role s he hp hr hnew]
  have hfind : (s.users ++ [(⟨s.nextId, email, H.hash salt password, role⟩ : User)]).find?
      (fun v => v.email == email) = some ⟨s.nextId, email, H.hash salt password, role⟩ :=
    findUser_appended s.users ⟨s.nextId, email, H.hash salt password, role⟩ hnew
  refine ⟨⟨by simp, ?_, ?_⟩, ?_, ?_⟩
  · simp [login, memDb, hfind, hH.accept, generateToken, tokenLifetime]
  · intro later hlater
    have hne := hJ.nonempty ⟨s.nextId, role, now, now + 3600⟩
    simp [authenticateToken, truthy, hne, jwtVerify, hJ.roundtrip, Nat.not_le.mpr hlater]
  · intro q hq
    simp [login, memDb, hfind, hH.reject salt password q hq]
  · intro t e pw hnone
    simp [login, memDb, findUser_none hnone]

/-- Witness for C5: the sample hasher and signer, a student who signs up on
the empty store. -/
theorem signup_then_login_witness :
    ((⟨0, "a@x.com", sampleHasher.hash 0 "pw", "student"⟩ : User) ∈
        (signup memDb sampleHasher 0 ⟨some "a@x.com", some "pw", some "student"⟩
          Store.empty).2.users ∧
      login memDb sampleHasher sampleJwt 10 ⟨some "a@x.com", some "pw"⟩
          (signup memDb sampleHasher 0 ⟨some "a@x.com", some "pw", some "student"⟩
            Store.empty).2 =
        (.sent 200 (.token (sampleJwt.sign ⟨0, "student", 10, 10 + 3600⟩)),
          (signup memDb sampleHasher 0 ⟨some "a@x.com", some "pw", some "student"⟩
            Store.empty).2) ∧
      ∀ later, later < 10 + 3600 →
        authenticateToken sampleJwt later
            (some (sampleJwt.sign ⟨0, "student", 10, 10 + 3600⟩)) =
          .next ⟨0, "student", 10, 10 + 3600⟩) ∧
    (∀ q, q ≠ "pw" →
      login memDb sampleHasher sampleJwt 10 ⟨some "a@x.com", some q⟩
          (signup memDb sampleHasher 0 ⟨some "a@x.com", some "pw", some "student"⟩
            Store.empty).2 =
        (.sent 400 (.text "Invalid credentials."),
          (signup memDb sampleHasher 0 ⟨some "a@x.com", some "pw", some "student"⟩
            Store.empty).2)) ∧
    (∀ (t : Store) (e : String) (pw : Option String), (∀ u ∈ t.users, u.email ≠ e) →
      login memDb sampleHasher sampleJwt 10 ⟨some e, pw⟩ t =
        (.sent 400 (.text "User not found."), t)) :=
  signup_then_login sampleHasher sampleJwt sampleHasher_lawful sampleJwt_lawful 0 10
    "a@x.com" "pw" "student" Store.empty (by decide)

/-! ## What one request does to the in-memory store -/

theorem mem_replaceCourse {c d : Course} {cs : List Course} (h : d ∈ replaceCourse c cs) :
    d = c ∨ d ∈ cs := by
  induction cs with
  | nil => simp [replaceCourse] at h
  | cons e es ih =>
    unfold replaceCourse at h
    split at h
    · rcases List.mem_cons.mp h with h | h
      · exact Or.inl h
      · exact Or.inr (List.mem_cons_of_mem _ h)
    · rcases List.mem_cons.mp h with h | h
      · exact Or.inr (h ▸ List.mem_cons_self _ _)
      · rcases ih h with h | h
        · exact Or.inl h
        · exact Or.inr (List.mem_cons_of_mem _ h)

theorem login_effect (H : Hasher) (J : Jwt) (now : Nat) (body : LoginBody) (s : Store) :
    (login memDb H J now body s).2 = s ∧
      ((login memDb H J now body s).1.token? = none ∨
        ∃ u ∈ s.users, (login memDb H J now body s).1.token? = some (generateToken J now u)) := by
  have hmem : ∀ u, memDb.findUserByEmail s body.email = .ok (some u) → u ∈ s.users := by
    intro u hu
    cases he : body.email with
    | none => simp [memDb, he] at hu
    | some e =>
      simp only [memDb, he] at hu
      exact List.mem_of_find?_eq_some (by simpa using hu)
  unfold login
  split
  · exact ⟨rfl, Or.inl rfl⟩
  · exact ⟨rfl, Or.inl rfl⟩
  · rename_i user hu
    split
    · exact ⟨rfl, Or.inl rfl⟩
    · split
      · exact ⟨rfl, Or.inl rfl⟩
      · exact ⟨rfl, Or.inr ⟨user, hmem user hu, rfl⟩⟩

theorem signup_token_none {σ : Type} (db : Db σ) (H : Hasher) (salt : Nat) (body : SignupBody)
    (s : σ) : (signup db H salt body s).1.token? = none := by
  unfold signup
  split
  · rfl
  · split
    · rfl
    · rfl
    · dsimp only
      split <;> rfl

theorem signup_effect (H : Hasher) (salt : Nat) (body : SignupBody) (s : Store) :
    (signup memDb H salt body s).2 = s ∨
      ∃ e p r, (signup memDb H salt body s).2 =
        { users := s.users ++ [⟨s.nextId, e, p, r⟩], courses := s.courses,
          nextId := s.nextId + 1 } := by
  unfold signup
  split
  · exact Or.inl rfl
  · split
    · exact Or.inl rfl
    · exact Or.inl rfl
    · dsimp only
      split
      · exact Or.inl rfl
      · rename_i s' hs'
        right
        simp only [memDb] at hs'
        split at hs'
        · cases hs'
        · split at hs'
          · cases hs'
          · cases hs'
            exact ⟨_, _, _, rfl⟩

theorem createCourse_effect (body : CourseBody) (user : Payload) (s : Store) :
    (createCourse memDb body user s).1.token? = none ∧
      ((createCourse memDb body user s).2 = s ∨
        (user.role = "instructor" ∧ ∃ t d, (createCourse memDb body user s).2 =
          { users := s.users, courses := s.courses ++ [⟨s.nextId, t, d, user.id, []⟩],
            nextId := s.nextId + 1 })) := by
  unfold createCourse
  split
  · exact ⟨rfl, Or.inl rfl⟩
  · rename_i hrole
    split
    · exact ⟨rfl, Or.inl rfl⟩
    · split
      · exact ⟨rfl, Or.inl rfl⟩
      · rename_i course s' hs'
        refine ⟨rfl, Or.inr ⟨not_not.mp hrole, ?_⟩⟩
        simp only [memDb] at hs'
        split at hs'
        · cases hs'
        · cases hs'
          exact ⟨_, _, rfl⟩

theorem enroll_effect (body : EnrollBody) (user : Payload) (s : Store) :
    (enroll memDb body user s).1.token? = none ∧
      ((enroll memDb body user s).2 = s ∨
        ∃ c ∈ s.courses, user.id ∉ c.students ∧ (enroll memDb body user s).2 =
          { users := s.users,
            courses := replaceCourse { c with students := c.students ++ [user.id] } s.courses,
            nextId := s.nextId }) := by
  have hmem : ∀ c, memDb.findCourseById s body.courseId = .ok (some c) → c ∈ s.courses := by
    intro c hc
    cases hb : body.courseId with
    | absent => simp [memDb, hb] at hc
    | malformed raw => simp [memDb, hb] at hc
    | objectId i =>
      simp only [memDb, hb] at hc
      exact List.mem_of_find?_eq_some (by simpa using hc)
  unfold enroll
  split
  · exact ⟨rfl, Or.inl rfl⟩
  · split
    · exact ⟨rfl, Or.inl rfl⟩
    · exact ⟨rfl, Or.inl rfl⟩
    · rename_i course hc
      split
      · rename_i hnot
        split
        · exact ⟨rfl, Or.inl rfl⟩
        · rename_i s' hs'
          refine ⟨rfl, Or.inr ⟨course, hmem course hc, by simpa using hnot, ?_⟩⟩
          simp only [memDb] at hs'
          cases hs'
          rfl
      · exact ⟨rfl, Or.inl rfl⟩

theorem authenticateToken_next {J : Jwt} {now : Nat} {auth : Option String} {p : Payload}
    (h : authenticateToken J now auth = .next p) : ∃ t, auth = some t ∧ J.verify t = some p := by
  unfold authenticateToken at h
  split at h
  · cases h
  · cases auth with
    | none => simp [truthy] at *
    | some t =>
      refine ⟨t, rfl, ?_⟩
      simp only [Option.getD_some, jwtVerify] at h
      cases hv : J.verify t with
      | none => simp [hv] at h
      | some q =>
        simp only [hv] at h
        split at h
        · cases h
        · rename_i heq
          split at heq
          · cases heq
          · cases heq
            cases h
            rfl

theorem withAuth_cases {σ : Type} (J : Jwt) (now : Nat) (auth : Option String)
    (handler : Payload → σ → Result × σ) (s : σ) :
    ((withAuth J now auth handler s).1.token? = none ∧ (withAuth J now auth handler s).2 = s) ∨
      ∃ p, authenticateToken J now auth = .next p ∧
        withAuth J now auth handler s = handler p s := by
  cases ha : authenticateToken J now auth with
  | next p => exact Or.inr ⟨p, rfl, by simp [withAuth, ha]⟩
  | denied st b =>
    left
    have hb : b.token? = none := by
      unfold authenticateToken at ha
      split at ha
      · cases ha; rfl
      · split at ha
        · cases ha; rfl
        · cases ha
    simp [withAuth, ha, Result.token?, hb]

/-- What a request does to the in-memory store: nothing; or it is a signup that
adds a user; or a course creation by a verified instructor identity that adds a
course without students; or an enrollment that appends a new student to one
stored course. Only a login returns a token, and it is one issued for a stored
user. -/
theorem handle_effect (H : Hasher) (J : Jwt) (env : Env) (req : Request) (s : Store) :
    ((handle memDb H J env req s).1.token? = none ∨
      ((handle memDb H J env req s).2 = s ∧ ∃ u ∈ s.users,
        (handle memDb H J env req s).1.token? = some (generateToken J env.now u))) ∧
    ((handle memDb H J env req s).2 = s ∨
      (∃ e p r, (handle memDb H J env req s).2 =
        { users := s.users ++ [⟨s.nextId, e, p, r⟩], courses := s.courses,
          nextId := s.nextId + 1 }) ∨
      (∃ p t d, authenticateToken J env.now req.auth = .next p ∧ p.role = "instructor" ∧
        (handle memDb H J env req s).2 =
          { users := s.users, courses := s.courses ++ [⟨s.nextId, t, d, p.id, []⟩],
            nextId := s.nextId + 1 }) ∨
      (∃ uid, ∃ c ∈ s.courses, uid ∉ c.students ∧ (handle memDb H J env req s).2 =
          { users := s.users,
            courses := replaceCourse { c with students := c.students ++ [uid] } s.courses,
            nextId := s.nextId })) := by
  cases req with
  | signup body =>
    refine ⟨Or.inl (signup_token_none _ _ _ _ _), ?_⟩
    rcases signup_effect H env.salt body s with h | h
    · exact Or.inl h
    · exact Or.inr (Or.inl h)
  | login body =>
    obtain ⟨h1, h2⟩ := login_effect H J env.now body s
    refine ⟨?_, Or.inl h1⟩
    rcases h2 with h2 | h2
    · exact Or.inl h2
    · exact Or.inr ⟨h1, h2⟩
  | profile auth =>
    rcases withAuth_cases J env.now auth profile s with ⟨h1, h2⟩ | ⟨p, _, h⟩
    · exact ⟨Or.inl h1, Or.inl h2⟩
    · simp only [handle, h]
      exact ⟨Or.inl rfl, Or.inl rfl⟩
  | course auth body =>
    rcases withAuth_cases J env.now auth (createCourse memDb body) s with ⟨h1, h2⟩ | ⟨p, hp, h⟩
    · exact ⟨Or.inl h1, Or.inl h2⟩
    · simp only [handle, h]
      obtain ⟨h1, h2⟩ := createCourse_effect body p s
      refine ⟨Or.inl h1, ?_⟩
      rcases h2 with h2 | ⟨hr, t, d, h2⟩
      · exact Or.inl h2
      · exact Or.inr (Or.inr (Or.inl ⟨p, t, d, hp, hr, h2⟩))
  | courses =>
    exact ⟨Or.inl rfl, Or.inl rfl⟩
  | enroll auth body =>
    rcases withAuth_cases J env.now auth (enroll memDb body) s with ⟨h1, h2⟩ | ⟨p, _, h⟩
    · exact ⟨Or.inl h1, Or.inl h2⟩
    · simp only [handle, h]
      obtain ⟨h1, h2⟩ := enroll_effect body p s
      refine ⟨Or.inl h1, ?_⟩
      rcases h2 with h2 | ⟨c, hc, hn, h2⟩
      · exact Or.inl h2
      · exact Or.inr (Or.inr (Or.inr ⟨p.id, c, hc, hn, h2⟩))
  | logout auth =>
    rcases withAuth_cases J env.now auth logout s with ⟨h1, h2⟩ | ⟨p, _, h⟩
    · exact ⟨Or.inl h1, Or.inl h2⟩
    · simp only [handle, h]
      exact ⟨Or.inl rfl, Or.inl rfl⟩

theorem handle_nodup (H : Hasher) (J : Jwt) (env : Env) (req : Request) (s : Store)
    (hs : ∀ c ∈ s.courses, c.students.Nodup) :
    ∀ c ∈ (handle memDb H J env req s).2.courses, c.students.Nodup := by
  rcases (handle_effect H J env req s).2 with h | ⟨e, p, r, h⟩ | ⟨p, t, d, _, _, h⟩ |
      ⟨uid, c, hc, hn, h⟩ <;> rw [h]
  · exact hs
  · exact hs
  · intro c hc
    rcases List.mem_append.mp hc with hc | hc
    · exact hs c hc
    · rw [List.mem_singleton.mp hc]
      exact List.nodup_nil
  · intro d hd
    rcases mem_replaceCourse hd with hd | hd
    · rw [hd]
      exact List.Nodup.append (hs c hc) (List.nodup_singleton uid)
        (fun a ha h1 => hn (List.mem_singleton.mp h1 ▸ ha))
    · exact hs d hd

/-- C9. The students of a course never contain a duplicate: in every store
reached from the empty one by requests handled one at a time, whatever they
are and whatever tokens they present, every course has pairwise distinct
students. Equivalently: enroll keeps the students of every course distinct,
and a course that create-course adds has no students. -/
theorem students_nodup (H : Hasher) (J : Jwt) (reqs : List (Env × Request)) :
    (∀ c ∈ (run H J Store.empty reqs).courses, c.students.Nodup) ∧
    (∀ (body : EnrollBody) (user : Payload) (s : Store),
      (∀ c ∈ s.courses, c.students.Nodup) →
      ∀ c ∈ (enroll memDb body user s).2.courses, c.students.Nodup) ∧
    (∀ (body : CourseBody) (user : Payload) (s : Store),
      ∀ c ∈ (createCourse memDb body user s).2.courses, c ∈ s.courses ∨ c.students = []) := by
  refine ⟨?_, ?_, ?_⟩
  · have key : ∀ (rs : List (Env × Request)) (s : Store),
        (∀ c ∈ s.courses, c.students.Nodup) →
        ∀ c ∈ (run H J s rs).courses, c.students.Nodup := by
      intro rs
      induction rs with
      | nil => intro s hs; exact hs
      | cons r rest ih =>
        intro s hs
        exact ih _ (handle_nodup H J r.1 r.2 s hs)
    exact key reqs Store.empty (by simp [Store.empty])
  · intro body user s hs d hd
    rcases (enroll_effect body user s).2 with h | ⟨c, hc, hn, h⟩
    · rw [h] at hd
      exact hs d hd
    · rw [h] at hd
      rcases mem_replaceCourse hd with hd | hd
      · rw [hd]
        exact List.Nodup.append (hs c hc) (List.nodup_singleton user.id)
          (fun a ha h1 => hn (List.mem_singleton.mp h1 ▸ ha))
      · exact hs d hd
  · intro body user s c hc
    rcases (createCourse_effect body user s).2 with h | ⟨_, t, d, h⟩
    · rw [h] at hc
      exact Or.inl hc
    · rw [h] at hc
      rcases List.mem_append.mp hc with hc | hc
      · exact Or.inl hc
      · rw [List.mem_singleton.mp hc]
        exact Or.inr rfl

/-! ## The invariant of the sessions -/

theorem inv_init (J : Jwt) : Inv J Sys.init where
  fresh := by simp [Sys.init, Store.empty]
  uniq := by simp [Sys.init, Store.empty]
  tokens := by simp [Sys.init]
  instr := by simp [Sys.init, Store.empty]

theorem inv_store_eq {J : Jwt} {sys : Sys} {s' : Store} (h : Inv J sys) (hs : s' = sys.store)
    (issued : List String)
    (ht : ∀ t ∈ issued, ∀ p, J.verify t = some p →
      ∃ u ∈ sys.store.users, u.id = p.id ∧ u.role = p.role) :
    Inv J { store := s', issued := issued } := by
  subst hs
  exact ⟨h.fresh, h.uniq, ht, h.instr⟩

theorem inv_step (H : Hasher) (J : Jwt) (hJ : J.Lawful) (env : Env) (req : Request) (sys : Sys)
    (hp : presentsIssued sys.issued req = true) (h : Inv J sys) :
    Inv J (sys.step H J env req) := by
  obtain ⟨htok, hstore⟩ := handle_effect H J env req sys.store
  -- the tokens recorded after the step verify to users of the store before it
  have hissued : ∀ t ∈ (sys.step H J env req).issued, ∀ p, J.verify t = some p →
      ∃ u ∈ sys.store.users, u.id = p.id ∧ u.role = p.role := by
    intro t ht p hv
    rcases htok with hnone | ⟨_, u, hu, hsome⟩
    · simp only [Sys.step, hnone] at ht
      exact h.tokens t ht p hv
    · simp only [Sys.step, hsome] at ht
      rcases List.mem_cons.mp ht with ht | ht
      · rw [ht, generateToken, hJ.roundtrip] at hv
        cases hv
        exact ⟨u, hu, rfl, rfl⟩
      · exact h.tokens t ht p hv
  have hstep : (sys.step H J env req).store = (handle memDb H J env req sys.store).2 := rfl
  rcases hstore with hs | ⟨e, pw, r, hs⟩ | ⟨p, t, d, hauth, hrole, hs⟩ | ⟨uid, c, hc, _, hs⟩
  · -- the store is as before
    exact inv_store_eq h (hstep.trans hs) _ hissued
  · -- a user was added
    refine ⟨?_, ?_, ?_, ?_⟩
    · intro u hu
      rw [hstep, hs] at hu ⊢
      rcases List.mem_append.mp hu with hu | hu
      · exact Nat.lt_succ_of_lt (h.fresh u hu)
      · rw [List.mem_singleton.mp hu]
        exact Nat.lt_succ_self _
    · intro u hu v hv huv
      rw [hstep, hs] at hu hv
      rcases List.mem_append.mp hu with hu | hu <;> rcases List.mem_append.mp hv with hv | hv
      · exact h.uniq u hu v hv huv
      · rw [List.mem_singleton.mp hv] at huv
        exact absurd huv (Nat.ne_of_lt (h.fresh u hu))
      · rw [List.mem_singleton.mp hu] at huv
        exact absurd huv.symm (Nat.ne_of_lt (h.fresh v hv))
      · rw [List.mem_singleton.mp hu, List.mem_singleton.mp hv]
    · intro t ht p hv
      obtain ⟨u, hu, hid⟩ := hissued t ht p hv
      rw [hstep, hs]
      exact ⟨u, List.mem_append_left _ hu, hid⟩
    · intro c hc
      rw [hstep, hs] at hc ⊢
      obtain ⟨u, hu, hid⟩ := h.instr c hc
      exact ⟨u, List.mem_append_left _ hu, hid⟩
  · -- a course was added, by an identity the middleware verified
    obtain ⟨tok, htok', hver⟩ := authenticateToken_next hauth
    have hmem : tok ∈ sys.issued := by
      simp only [presentsIssued, htok'] at hp
      simpa using hp
    obtain ⟨u, hu, huid, hur⟩ := h.tokens tok hmem p hver
    refine ⟨?_, ?_, ?_, ?_⟩
    · intro v hv
      rw [hstep, hs] at hv ⊢
      exact Nat.lt_succ_of_lt (h.fresh v hv)
    · intro v hv w hw hvw
      rw [hstep, hs] at hv hw
      exact h.uniq v hv w hw hvw
    · intro t' ht' p' hv'
      rw [hstep, hs]
      exact hissued t' ht' p' hv'
    · intro c hc
      rw [hstep, hs] at hc ⊢
      rcases List.mem_append.mp hc with hc | hc
      · exact h.instr c hc
      · rw [List.mem_singleton.mp hc]
        exact ⟨u, hu, huid, hur.trans hrole⟩
  · -- a student was appended to a stored course
    refine ⟨?_, ?_, ?_, ?_⟩
    · intro v hv
      rw [hstep, hs] at hv ⊢
      exact h.fresh v hv
    · intro v hv w hw hvw
      rw [hstep, hs] at hv hw
      exact h.uniq v hv w hw hvw
    · intro t' ht' p' hv'
      rw [hstep, hs]
      exact hissued t' ht' p' hv'
    · intro d hd
      rw [hstep, hs] at hd ⊢
      rcases mem_replaceCourse hd with hd | hd
      · rw [hd]
        exact h.instr c hc
      · exact h.instr d hd

theorem inv_run (H : Hasher) (J : Jwt) (hJ : J.Lawful) (reqs : List (Env × Request)) :
    ∀ sys sys', Inv J sys → Sys.run H J sys reqs = some sys' → Inv J sys' := by
  induction reqs with
  | nil =>
    intro sys sys' h hrun
    simp only [Sys.run, Option.some.injEq] at hrun
    exact hrun ▸ h
  | cons r rest ih =>
    intro sys sys' h hrun
    simp only [Sys.run] at hrun
    split at hrun
    · rename_i hp
      exact ih _ _ (inv_step H J hJ r.1 r.2 sys hp h) hrun
    · cases hrun

/-- C8. With a signer whose tokens verify to their payload: in every state
reached from the empty store by signup, login, create-course, enroll, profile,
list-courses and logout requests in which every token presented is one that
login returned before, the instructor id of every course is the id of a stored
user, of exactly one, and the stored role of that user is `instructor`. -/
theorem instructor_is_stored_instructor (H : Hasher) (J : Jwt) (hJ : J.Lawful)
    (reqs : List (Env × Request)) (sys : Sys)
    (hrun : Sys.run H J Sys.init reqs = some sys) :
    ∀ c ∈ sys.store.courses, ∃ u ∈ sys.store.users,
      u.id = c.instructorId ∧ u.role = "instructor" ∧
        ∀ v ∈ sys.store.users, v.id = c.instructorId → v = u := by
  have h := inv_run H J hJ reqs Sys.init sys (inv_init J) hrun
  intro c hc
  obtain ⟨u, hu, hid, hrole⟩ := h.instr c hc
  exact ⟨u, hu, hid, hrole, fun v hv hvid => h.uniq v hv u hu (hvid.trans hid.symm)⟩

/-- Witness for C8: the sample session, after which the store has one course,
created by the instructor who signed up first. -/
theorem instructor_is_stored_instructor_witness :
    Sys.run sampleHasher sampleJwt Sys.init sampleSession = some sampleSys ∧
    sampleSys.store.courses = [⟨2, "Logic", "An introduction", 0, [1]⟩] ∧
    ∀ c ∈ sampleSys.store.courses, ∃ u ∈ sampleSys.store.users,
      u.id = c.instructorId ∧ u.role = "instructor" ∧
        ∀ v ∈ sampleSys.store.users, v.id = c.instructorId → v = u :=
  ⟨rfl, rfl, instructor_is_stored_instructor sampleHasher sampleJwt sampleJwt_lawful
    sampleSession sampleSys rfl⟩

/-- Witness for C9: after the sample session, in which a student enrolls twice
in the same course, the course lists the student once. -/
theorem students_nodup_witness :
    (run sampleHasher sampleJwt Store.empty sampleSession).courses =
      [⟨2, "Logic", "An introduction", 0, [1]⟩] ∧
    (∀ c ∈ (run sampleHasher sampleJwt Store.empty sampleSession).courses, c.students.Nodup) ∧
    (∀ c ∈ (enroll memDb ⟨.objectId 2⟩ ⟨1, "student", 3, 3603⟩
        ⟨[], [⟨2, "Logic", "An introduction", 0, [1]⟩], 3⟩).2.courses, c.students.Nodup) :=
  ⟨rfl, (students_nodup sampleHasher sampleJwt sampleSession).1,
   (students_nodup sampleHasher sampleJwt sampleSession).2.1 ⟨.objectId 2⟩ ⟨1, "student", 3, 3603⟩
     ⟨[], [⟨2, "Logic", "An introduction", 0, [1]⟩], 3⟩ (by simp)⟩

/-- C10, the failing inputs. A signup with the role `admin`, for which
`user.save()` rejects, and an enrollment with the course id `abc`, for which
`Course.findById` rejects: the handler sends no response, where the claim says
a failure response with the message of the error. The same holds for signup,
login, create-course, list-courses and enroll over a database whose every
operation fails with `boom`, while the controller `createUser`, over a model
whose save fails with `boom`, answers 400 with that message as `details`. -/
theorem store_error_sends_no_response :
    (signup memDb sampleHasher 0 ⟨some "b@x.com", some "pw", some "admin"⟩
      Store.empty).1.status? = none ∧
    (enroll memDb ⟨.malformed "abc"⟩ ⟨1, "student", 0, 3600⟩ Store.empty).1.status? = none ∧
    signup failingDb sampleHasher 0 ⟨some "a@x.com", some "pw", some "student"⟩ () =
      (.threw "boom", ()) ∧
    login failingDb sampleHasher sampleJwt 0 ⟨some "a@x.com", some "pw"⟩ () =
      (.threw "boom", ()) ∧
    createCourse failingDb ⟨some "t", some "d"⟩ ⟨0, "instructor", 0, 3600⟩ () =
      (.threw "boom", ()) ∧
    listCourses failingDb () = (.threw "boom", ()) ∧
    enroll failingDb ⟨.objectId 1⟩ ⟨0, "student", 0, 3600⟩ () = (.threw "boom", ()) ∧
    userController.createUser failingUserModel ⟨some "ann", some "pw"⟩ () =
      (.sent 400 (.failure "Error creating user" "boom"), ()) := by
  decide

/-- What a store error becomes. The controller `createUser` reports a failure
of `userService.createUser` as 400 with `error: Error creating user` and the
message of the error as `details`, and a success as 201 with the message and
the username of the user only. The handlers of `server.js` catch no error of
the store: when a store operation they reach fails, they send no response and
reject with the error of the store, leaving the store as it was. -/
theorem store_errors {σ δ τ : Type} (M : UserModel σ δ) (db : Db τ) (H : Hasher) (J : Jwt)
    (s : σ) (t : τ) :
    (∀ body msg, userService.createUser M body.username body.password s = .error msg →
      userController.createUser M body s =
        (.sent 400 (.failure "Error creating user" msg), s)) ∧
    (∀ body user s', userService.createUser M body.username body.password s = .ok (user, s') →
      userController.createUser M body s =
        (.sent 201 (.createdUser "User created successfully" (M.username user)), s')) ∧
    (∀ salt body e, truthy body.email = true → truthy body.password = true →
      truthy body.role = true → db.findUserByEmail t body.email = .error e →
      signup db H salt body t = (.threw e, t)) ∧
    (∀ salt body e, truthy body.email = true → truthy body.password = true →
      truthy body.role = true → db.findUserByEmail t body.email = .ok none →
      db.saveNewUser t (body.email.getD "") (H.hash salt (body.password.getD ""))
        (body.role.getD "") = .error e →
      signup db H salt body t = (.threw e, t)) ∧
    (∀ now body e, db.findUserByEmail t body.email = .error e →
      login db H J now body t = (.threw e, t)) ∧
    (∀ body user e, user.role = "instructor" → truthy body.title = true →
      truthy body.description = true →
      db.saveNewCourse t (body.title.getD "") (body.description.getD "") user.id = .error e →
      createCourse db body user t = (.threw e, t)) ∧
    (∀ e, db.findCourses t = .error e → listCourses db t = (.threw e, t)) ∧
    (∀ body user e, user.role = "student" → db.findCourseById t body.courseId = .error e →
      enroll db body user t = (.threw e, t)) ∧
    (∀ body user c e, user.role = "student" → db.findCourseById t body.courseId = .ok (some c) →
      user.id ∉ c.students →
      db.saveCourse t { c with students := c.students ++ [user.id] } = .error e →
      enroll db body user t = (.threw e, t)) := by
  refine ⟨?_, ?_, ?_, ?_, ?_, ?_, ?_, ?_, ?_⟩
  · intro body msg h
    simp [userController.createUser, h]
  · intro body user s' h
    simp [userController.createUser, h]
  · intro salt body e h1 h2 h3 h
    simp [signup, h1, h2, h3, h]
  · intro salt body e h1 h2 h3 h h'
    simp [signup, h1, h2, h3, h, h']
  · intro now body e h
    simp [login, h]
  · intro body user e hr h1 h2 h
    simp [createCourse, hr, h1, h2, h]
  · intro e h
    simp [listCourses, h]
  · intro body user e hr h
    simp [enroll, hr, h]
  · intro body user c e hr h hn h'
    simp [enroll, hr, h, hn, h']

/-- A sample of `store_errors`: the controller over a model whose save fails and
over one whose save succeeds; the signup handler over a failing database. -/
theorem store_errors_sample :
    userController.createUser failingUserModel ⟨some "ann", some "pw"⟩ () =
      (.sent 400 (.failure "Error creating user" "boom"), ()) ∧
    userController.createUser sampleUserModel ⟨some "ann", some "pw"⟩ () =
      (.sent 201 (.createdUser "User created successfully" (some "ann")), ()) ∧
    signup failingDb sampleHasher 0 ⟨some "a@x.com", some "pw", some "student"⟩ () =
      (.threw "boom", ()) :=
  ⟨(store_errors failingUserModel failingDb sampleHasher sampleJwt () ()).1
      ⟨some "ann", some "pw"⟩ "boom" rfl,
   (store_errors sampleUserModel failingDb sampleHasher sampleJwt () ()).2.1
      ⟨some "ann", some "pw"⟩ (some "ann") () rfl,
   (store_errors failingUserModel failingDb sampleHasher sampleJwt () ()).2.2.1 0
      ⟨some "a@x.com", some "pw", some "student"⟩ "boom" rfl rfl rfl rfl⟩

/-! ## Stores reached from the empty one -/

theorem replaceCourse_ids (c : Course) (cs : List Course) :
    (replaceCourse c cs).map (fun d => d.id) = cs.map (fun d => d.id) := by
  induction cs with
  | nil => rfl
  | cons d ds ih =>
    unfold replaceCourse
    split
    · rename_i h
      simp [h]
    · simp [ih]

theorem handle_courseIds (H : Hasher) (J : Jwt) (env : Env) (req : Request) (s : Store)
    (hs : (∀ c ∈ s.courses, c.id < s.nextId) ∧ (s.courses.map (fun d => d.id)).Nodup) :
    (∀ c ∈ (handle memDb H J env req s).2.courses, c.id < (handle memDb H J env req s).2.nextId) ∧
      ((handle memDb H J env req s).2.courses.map (fun d => d.id)).Nodup := by
  obtain ⟨hlt, hnd⟩ := hs
  rcases (handle_effect H J env req s).2 with h | ⟨e, p, r, h⟩ | ⟨p, t, d, _, _, h⟩ |
      ⟨uid, c, hc, hn, h⟩ <;> rw [h]
  · exact ⟨hlt, hnd⟩
  · exact ⟨fun c hc => Nat.lt_succ_of_lt (hlt c hc), hnd⟩
  · constructor
    · intro c hc
      rcases List.mem_append.mp hc with hc | hc
      · exact Nat.lt_succ_of_lt (hlt c hc)
      · rw [List.mem_singleton.mp hc]
        exact Nat.lt_succ_self _
    · simp only [List.map_append, List.map_cons, List.map_nil]
      refine List.Nodup.append hnd (List.nodup_singleton _) ?_
      intro a ha h1
      rw [List.mem_singleton.mp h1] at ha
      obtain ⟨c, hc, hca⟩ := List.mem_map.mp ha
      exact absurd hca (Nat.ne_of_lt (hlt c hc))
  · constructor
    · intro d hd
      rcases mem_replaceCourse hd with hd | hd
      · rw [hd]
        exact hlt c hc
      · exact hlt d hd
    · have := replaceCourse_ids { c with students := c.students ++ [uid] } s.courses
      simp only at this ⊢
      rw [this]
      exact hnd

theorem run_invariants (H : Hasher) (J : Jwt) (reqs : List (Env × Request)) :
    ∀ s : Store, (∀ c ∈ s.courses, c.students.Nodup) →
      ((∀ c ∈ s.courses, c.id < s.nextId) ∧ (s.courses.map (fun d => d.id)).Nodup) →
      (∀ c ∈ (run H J s reqs).courses, c.students.Nodup) ∧
        ((run H J s reqs).courses.map (fun d => d.id)).Nodup := by
  induction reqs with
  | nil => intro s h1 h2; exact ⟨h1, h2.2⟩
  | cons r rest ih =>
    intro s h1 h2
    exact ih _ (handle_nodup H J r.1 r.2 s h1) (handle_courseIds H J r.1 r.2 s h2)

/-- C1. Enroll is idempotent. For every store reached from the empty one by
requests handled one at a time, every course in it and every student identity,
two calls of the enroll handler in a row with that identity and the id of the
course: the first answers 200 or 400 `Already enrolled in this course`; the
second answers 400 `Already enrolled in this course`, not an error, and leaves
the store exactly as the first left it; and that course, the only one with its
id, then lists the student exactly once, its title, description and instructor
and every other course and the users being as before the two calls. -/
theorem enroll_idempotent (H : Hasher) (J : Jwt) (reqs : List (Env × Request))
    (body : EnrollBody) (user : Payload) (c : Course) (hrole : user.role = "student")
    (hc : c ∈ (run H J Store.empty reqs).courses) (hid : body.courseId = .objectId c.id) :
    ((enroll memDb body user (run H J Store.empty reqs)).1 =
        .sent 200 (.message "Enrolled in course successfully") ∨
      (enroll memDb body user (run H J Store.empty reqs)).1 =
        .sent 400 (.text "Already enrolled in this course")) ∧
    enroll memDb body user (enroll memDb body user (run H J Store.empty reqs)).2 =
      (.sent 400 (.text "Already enrolled in this course"),
        (enroll memDb body user (run H J Store.empty reqs)).2) ∧
    ∃ pre post c', (run H J Store.empty reqs).courses = pre ++ c :: post ∧
      (enroll memDb body user (run H J Store.empty reqs)).2.courses = pre ++ c' :: post ∧
      (enroll memDb body user (run H J Store.empty reqs)).2.users =
        (run H J Store.empty reqs).users ∧
      (∀ d ∈ pre ++ post, d.id ≠ c.id) ∧
      c'.id = c.id ∧ c'.title = c.title ∧ c'.description = c.description ∧
      c'.instructorId = c.instructorId ∧ c'.students.count user.id = 1 := by
  obtain ⟨hnd, hids⟩ := run_invariants H J reqs Store.empty (by simp [Store.empty])
    (by simp [Store.empty])
  obtain ⟨pre, post, hs⟩ := List.append_of_mem hc
  have hother : ∀ d ∈ pre ++ post, d.id ≠ c.id := by
    rw [hs] at hids
    simp only [List.map_append, List.map_cons] at hids
    obtain ⟨_, hcp, hdisj⟩ := List.nodup_append.mp hids
    have hpost := (List.nodup_cons.mp hcp).1
    intro d hd heq
    rcases List.mem_append.mp hd with hd | hd
    · have h1 : d.id ∈ pre.map (fun d => d.id) := List.mem_map_of_mem _ hd
      have h2 : d.id ∈ c.id :: post.map (fun d => d.id) := by
        rw [heq]
        exact List.mem_cons_self _ _
      exact hdisj h1 h2
    · have h1 : d.id ∈ post.map (fun d => d.id) := List.mem_map_of_mem _ hd
      rw [heq] at h1
      exact hpost h1
  have hpre : ∀ d ∈ pre, d.id ≠ c.id := fun d hd => hother d (List.mem_append_left _ hd)
  by_cases hmem : user.id ∈ c.students
  · have h1 := enroll_already body user _ c pre post hrole hid hs hpre hmem
    rw [h1]
    refine ⟨Or.inr rfl, h1, pre, post, c, hs, hs, rfl, hother, rfl, rfl, rfl, rfl, ?_⟩
    exact List.count_eq_one_of_mem (hnd c hc) hmem
  · have h1 := enroll_appends body user _ c pre post hrole hid hs hpre hmem
    rw [h1]
    refine ⟨Or.inl rfl, ?_, pre, post, { c with students := c.students ++ [user.id] }, hs, rfl,
      rfl, hother, rfl, rfl, rfl, rfl, ?_⟩
    · exact enroll_already body user _ { c with students := c.students ++ [user.id] }
        pre post hrole hid rfl hpre (by simp)
    · simp [List.count_append, List.count_eq_zero_of_not_mem hmem]

/-- Witness for C1: after the sample session a second student enrolls twice in
the course of the store. -/
theorem enroll_idempotent_witness :
    ((enroll memDb ⟨.objectId 2⟩ ⟨7, "student", 9, 3609⟩
          (run sampleHasher sampleJwt Store.empty sampleSession)).1 =
        .sent 200 (.message "Enrolled in course successfully") ∨
      (enroll memDb ⟨.objectId 2⟩ ⟨7, "student", 9, 3609⟩
          (run sampleHasher sampleJwt Store.empty sampleSession)).1 =
        .sent 400 (.text "Already enrolled in this course")) ∧
    enroll memDb ⟨.objectId 2⟩ ⟨7, "student", 9, 3609⟩
        (enroll memDb ⟨.objectId 2⟩ ⟨7, "student", 9, 3609⟩
          (run sampleHasher sampleJwt Store.empty sampleSession)).2 =
      (.sent 400 (.text "Already enrolled in this course"),
        (enroll memDb ⟨.objectId 2⟩ ⟨7, "student", 9, 3609⟩
          (run sampleHasher sampleJwt Store.empty sampleSession)).2) ∧
    ∃ pre post c',
      (run sampleHasher sampleJwt Store.empty sampleSession).courses =
        pre ++ ⟨2, "Logic", "An introduction", 0, [1]⟩ :: post ∧
      (enroll memDb ⟨.objectId 2⟩ ⟨7, "student", 9, 3609⟩
        (run sampleHasher sampleJwt Store.empty sampleSession)).2.courses = pre ++ c' :: post ∧
      (enroll memDb ⟨.objectId 2⟩ ⟨7, "student", 9, 3609⟩
        (run sampleHasher sampleJwt Store.empty sampleSession)).2.users =
        (run sampleHasher sampleJwt Store.empty sampleSession).users ∧
      (∀ d ∈ pre ++ post, d.id ≠ 2) ∧
      c'.id = 2 ∧ c'.title = "Logic" ∧ c'.description = "An introduction" ∧
      c'.instructorId = 0 ∧ c'.students.count 7 = 1 :=
  enroll_idempotent sampleHasher sampleJwt sampleSession ⟨.objectId 2⟩ ⟨7, "student", 9, 3609⟩
    ⟨2, "Logic", "An introduction", 0, [1]⟩ rfl (by decide) rfl

end Week6
